import Mathlib

/-
  Verification model of src/stepmania/src/BannerCache.cpp.

  The banner cache is embedded shallowly as a state machine:
  - BCState holds the mutable program state: the in-memory bitmap map
    g_BannerPathToImage, the demand refcount g_iDemandRefcount, the
    BannerData index (the on-disk key/value record store, path to record),
    and the contents of the on-disk cache image files (keyed by cache path).
  - Env holds the external collaborators the file consults but does not
    implement: preferences (cache mode, fast load, paletted cache), the
    filesystem (existence, content hash, source decode), path derivation,
    the diagonal-banner heuristic, and the texture-manager query.
  Surfaces are modelled by their dimensions and bits-per-pixel; pixel data
  is irrelevant to every property proved here.  RageSurfaceUtils transforms
  are modelled by their documented effect on dimensions and format.
  Missing or undecodable cache files are both modelled as an absent disk
  entry, matching the collaborator contract that decode failure and missing
  file both yield "absent".
-/

/-- The banner-cache preference modes consulted by BannerCache.cpp
(PrefsManager's m_BannerCache).  The code only distinguishes the two
low-res modes from everything else, so the remaining modes are collapsed
into BNCACHE_OFF. -/
inductive BannerCacheMode where
  | BNCACHE_OFF
  | BNCACHE_LOW_RES_PRELOAD
  | BNCACHE_LOW_RES_LOAD_ON_DEMAND
deriving DecidableEq

open BannerCacheMode

/-- A decoded image surface: width, height and format depth.  Pixel data is
not modelled; no claim depends on it. -/
structure RageSurface where
  w : Nat
  h : Nat
  bitsPerPixel : Nat
deriving DecidableEq

/-- One BannerData index record for a banner path: the five keys written
together by CacheBannerInternal (Path, Width, Height, FullHash, Rotated). -/
structure BannerRecord where
  cachePathVal : String
  width : Nat
  height : Nat
  fullHash : Nat
  rotated : Bool
deriving DecidableEq

/-- The mutable state of BannerCache.cpp: g_BannerPathToImage,
g_iDemandRefcount, the BannerData index (ordered list of sections, as in
the IniFile), and the cache image files on disk, keyed by cache path. -/
structure BCState where
  bannerPathToImage : String → Option RageSurface
  demandRefcount : Int
  bannerData : List (String × BannerRecord)
  cacheDisk : String → Option RageSurface

/-- The external collaborators consulted by BannerCache.cpp. -/
structure Env where
  mode : BannerCacheMode
  fastLoad : Bool
  palettedBannerCache : Bool
  doesFileExist : String → Bool
  loadFile : String → Option RageSurface
  hashForFile : String → Nat
  getCacheFilePath : String → String → String
  isDiagonalBanner : Nat → Nat → Bool
  songBannerTexture : String → String
  isTextureRegistered : String → Bool

/-- Leftmost lookup in an association list (the IniFile's GetChild /
GetValue on a section). -/
def mapFind {α : Type} : List (String × α) → String → Option α
  | [], _ => none
  | (k, v) :: rest, key => if k = key then some v else mapFind rest key

/-- Replace the first binding of a key, or append it (the IniFile's
SetValue on a section: a map with unique keys). -/
def mapSet {α : Type} : List (String × α) → String → α → List (String × α)
  | [], key, v => [(key, v)]
  | (k, w) :: rest, key, v =>
      if k = key then (key, v) :: rest else (k, w) :: mapSet rest key v

/-- BannerCache::GetBannerCachePath: SongCacheIndex::GetCacheFilePath
("Banners", path); path derivation itself is an external collaborator. -/
def GetBannerCachePath (env : Env) (sBannerPath : String) : String :=
  env.getCacheFilePath "Banners" sBannerPath

/-- Fuelled doubling loop: value starts at 1 and doubles while it is below
the input; fuel n suffices since the loop runs at most log2 n times. -/
def p2go (n : Nat) : Nat → Nat → Nat
  | 0, v => v
  | f + 1, v => if v < n then p2go n f (2 * v) else v

/-- Modelled from the spec: the `nextPowerOfTwo` helper (RageUtil's
power_of_two, which is not under src/) — the enclosing (rounded-up) power
of two: the loop value starts at 1 and doubles while below the input, so
the result is the smallest power of two that is at least the input, and 1
for inputs 0 and 1. -/
def power_of_two (n : Nat) : Nat := p2go n n 1

/-- The static helper closest(num, n1, n2) of BannerCache.cpp: returns
whichever of n1, n2 has the smaller absolute distance to num, preferring
n1 when the distances are equal. -/
def closest (num n1 n2 : Int) : Int :=
  if (num - n1).natAbs > (num - n2).natAbs then n2 else n1

/-- The resize-target computation of CacheBannerInternal for one dimension
d: halve (int division), snap to the nearer of power_of_two(halved) and
power_of_two(halved)/2 via closest, then clamp to the floor
min(32, power_of_two(d)) — lines 431-441 of BannerCache.cpp.  All
intermediate values are the C ints of the source; they are nonnegative
throughout. -/
def targetDim (d : Nat) : Int :=
  max (closest (↑(d / 2)) (↑(power_of_two (d / 2))) (↑(power_of_two (d / 2) / 2)))
      (min 32 (↑(power_of_two d)))

/-- The up-to-date fingerprint comparison in CacheBanner:
BannerData.GetValue(path, "FullHash", CurFullHash) succeeds and the stored
hash equals GetHashForFile(path). -/
def storedHashMatches (env : Env) (st : BCState) (sBannerPath : String) : Bool :=
  match mapFind st.bannerData sBannerPath with
  | some r => r.fullHash == env.hashForFile sBannerPath
  | none => false

/-- The value LoadCachedBanner reads for "Width": GetValue leaves the
local variable at its initialiser 0 when the record is absent. -/
def bannerRecordWidth (st : BCState) (sBannerPath : String) : Nat :=
  match mapFind st.bannerData sBannerPath with
  | some r => r.width
  | none => 0

/-- The value LoadCachedBanner reads for "Height" (0 when absent). -/
def bannerRecordHeight (st : BCState) (sBannerPath : String) : Nat :=
  match mapFind st.bannerData sBannerPath with
  | some r => r.height
  | none => 0

/-- The value LoadCachedBanner reads for "Rotated" (false when absent). -/
def bannerRecordRotated (st : BCState) (sBannerPath : String) : Bool :=
  match mapFind st.bannerData sBannerPath with
  | some r => r.rotated
  | none => false

/-- The result of the transform step of CacheBannerInternal on a decoded
source image: the encoded image that is saved (and, in preload mode,
inserted into memory), together with the values recorded in the index. -/
structure TransformResult where
  img : RageSurface
  iSourceWidth : Nat
  iSourceHeight : Nat
  wasRotatedBanner : Bool

/-- The transform pipeline of CacheBannerInternal (lines 383-480):
diagonal banners are un-rotated onto a fixed 256x64 32-bit canvas
(BlitTransform onto the CreateSurface canvas; ApplyHotPinkColorKey and
ConvertSurface do not change dimensions); iSourceWidth/iSourceHeight are
taken from the (possibly replaced) image; each dimension is halved,
snapped and floored by targetDim; Zoom resizes to exactly those targets;
the result is palettized to 8 bpp when the paletted cache is enabled and
the image is not already 1 byte per pixel, and otherwise ordered-dithered
onto a 16-bit (5-5-5-1) surface of the same dimensions. -/
def cacheTransform (env : Env) (img0 : RageSurface) : TransformResult :=
  let wasRotatedBanner := env.isDiagonalBanner img0.w img0.h
  let img1 : RageSurface :=
    if wasRotatedBanner then { w := 256, h := 64, bitsPerPixel := 32 } else img0
  let iSourceWidth := img1.w
  let iSourceHeight := img1.h
  let width : Int := targetDim img1.w
  let height : Int := targetDim img1.h
  let zoomed : RageSurface :=
    { w := width.toNat, h := height.toNat, bitsPerPixel := img1.bitsPerPixel }
  let encoded : RageSurface :=
    if env.palettedBannerCache then
      (if zoomed.bitsPerPixel / 8 ≠ 1 then { zoomed with bitsPerPixel := 8 } else zoomed)
    else { zoomed with bitsPerPixel := 16 }
  { img := encoded, iSourceWidth := iSourceWidth, iSourceHeight := iSourceHeight,
    wasRotatedBanner := wasRotatedBanner }

/-- BannerCache::CacheBannerInternal (lines 373-509).  If the source file
cannot be loaded, log and return with the state unchanged.  Otherwise run
the transform, save the encoded image at the cache path, free and erase
any previously loaded in-memory entry for the path, keep the fresh image
in memory exactly when the mode is BNCACHE_LOW_RES_PRELOAD, and rewrite
the index record (Path, Width, Height, FullHash, Rotated). -/
def CacheBannerInternal (env : Env) (sBannerPath : String) (st : BCState) : BCState :=
  match env.loadFile sBannerPath with
  | none => st
  | some img0 =>
    let t := cacheTransform env img0
    let cp := GetBannerCachePath env sBannerPath
    let diskAfter : String → Option RageSurface :=
      fun q => if q = cp then some t.img else st.cacheDisk q
    let memErased : String → Option RageSurface :=
      fun q => if q = sBannerPath then none else st.bannerPathToImage q
    let memAfter : String → Option RageSurface :=
      if env.mode = BNCACHE_LOW_RES_PRELOAD then
        fun q => if q = sBannerPath then some t.img else memErased q
      else memErased
    let newRecord : BannerRecord :=
      { cachePathVal := cp, width := t.iSourceWidth, height := t.iSourceHeight,
        fullHash := env.hashForFile sBannerPath, rotated := t.wasRotatedBanner }
    { bannerPathToImage := memAfter, demandRefcount := st.demandRefcount,
      bannerData := mapSet st.bannerData sBannerPath newRecord,
      cacheDisk := diskAfter }

/-- BannerCache::UnloadAllBanners: free every loaded surface and clear the
in-memory map. -/
def UnloadAllBanners (st : BCState) : BCState :=
  { st with bannerPathToImage := fun _ => none }

/-- The FOREACH loop of BannerCache::Demand: for each section of the
BannerData index in order, if the path is not already loaded, try to load
its cache file; a missing file is skipped. -/
def demandLoad (env : Env) (disk : String → Option RageSurface) :
    List (String × BannerRecord) → (String → Option RageSurface) →
    (String → Option RageSurface)
  | [], mem => mem
  | (q, _) :: rest, mem =>
      demandLoad env disk rest
        (if (mem q).isSome then mem
         else
           match disk (GetBannerCachePath env q) with
           | none => mem
           | some img => fun s => if s = q then some img else mem s)

/-- BannerCache::Demand (lines 62-87): increment the refcount; return at
once if the new count exceeds 1 or the mode is not load-on-demand;
otherwise bulk-load every known asset's cache file. -/
def Demand (env : Env) (st : BCState) : BCState :=
  let st1 : BCState := { st with demandRefcount := st.demandRefcount + 1 }
  if st1.demandRefcount > 1 then st1
  else if env.mode ≠ BNCACHE_LOW_RES_LOAD_ON_DEMAND then st1
  else
    { st1 with bannerPathToImage :=
        demandLoad env st1.cacheDisk st1.bannerData st1.bannerPathToImage }

/-- BannerCache::Undemand (lines 90-100): decrement the refcount; return
at once if the new count is nonzero or the mode is not load-on-demand;
otherwise unload all banners. -/
def Undemand (env : Env) (st : BCState) : BCState :=
  let st1 : BCState := { st with demandRefcount := st.demandRefcount - 1 }
  if st1.demandRefcount ≠ 0 then st1
  else if env.mode ≠ BNCACHE_LOW_RES_LOAD_ON_DEMAND then st1
  else UnloadAllBanners st1

/-- The observable outcome of one BannerCache::LoadBanner call: the final
state, how many times CacheBannerInternal ran, and how many times
LoadSurface was attempted on the cache file. -/
structure LoadBannerTrace where
  state : BCState
  regenAttempts : Nat
  loadAttempts : Nat

/-- BannerCache::LoadBanner (lines 106-146) with its two-iteration retry
loop unrolled (the loop bound is the literal 2 in the source).  An empty
path or a mode other than the two low-res modes is a no-op.  Iteration 0:
if the path is already resident, return; otherwise try to load the cache
file; on success insert it (iteration 1 then finds it resident and
returns); on failure run CacheBannerInternal and continue.  Iteration 1:
if the path is now resident (preload mode loads it during regeneration),
return; otherwise retry the load once; on a second failure log and return
with no entry for the path. -/
def LoadBannerRun (env : Env) (sBannerPath : String) (st : BCState) : LoadBannerTrace :=
  if sBannerPath = "" then { state := st, regenAttempts := 0, loadAttempts := 0 }
  else if env.mode ≠ BNCACHE_LOW_RES_PRELOAD ∧
          env.mode ≠ BNCACHE_LOW_RES_LOAD_ON_DEMAND then
    { state := st, regenAttempts := 0, loadAttempts := 0 }
  else
    if (st.bannerPathToImage sBannerPath).isSome then
      { state := st, regenAttempts := 0, loadAttempts := 0 }
    else
      match st.cacheDisk (GetBannerCachePath env sBannerPath) with
      | some img =>
        { state := { st with bannerPathToImage :=
            fun q => if q = sBannerPath then some img else st.bannerPathToImage q },
          regenAttempts := 0, loadAttempts := 1 }
      | none =>
        let st1 := CacheBannerInternal env sBannerPath st
        if (st1.bannerPathToImage sBannerPath).isSome then
          { state := st1, regenAttempts := 1, loadAttempts := 1 }
        else
          match st1.cacheDisk (GetBannerCachePath env sBannerPath) with
          | some img =>
            { state := { st1 with bannerPathToImage :=
                fun q => if q = sBannerPath then some img else st1.bannerPathToImage q },
              regenAttempts := 1, loadAttempts := 2 }
          | none => { state := st1, regenAttempts := 1, loadAttempts := 2 }

/-- BannerCache::LoadBanner, state effect only. -/
def LoadBanner (env : Env) (sBannerPath : String) (st : BCState) : BCState :=
  (LoadBannerRun env sBannerPath st).state

/-- BannerCache::CacheBanner (lines 334-371), paired with whether the call
reached CacheBannerInternal (the regeneration step).  Not in a low-res
mode, or a nonexistent source file: return at once.  If the cache file
exists and either fast load is set or the stored FullHash equals the
current hash of the source, skip regeneration (loading the result into
memory when in preload mode).  Otherwise regenerate. -/
def CacheBannerRun (env : Env) (sBannerPath : String) (st : BCState) : BCState × Bool :=
  if env.mode ≠ BNCACHE_LOW_RES_PRELOAD ∧
     env.mode ≠ BNCACHE_LOW_RES_LOAD_ON_DEMAND then (st, false)
  else if env.doesFileExist sBannerPath = false then (st, false)
  else if (st.cacheDisk (GetBannerCachePath env sBannerPath)).isSome then
    (if env.fastLoad || storedHashMatches env st sBannerPath then
      (if env.mode = BNCACHE_LOW_RES_PRELOAD then LoadBanner env sBannerPath st else st,
       false)
     else
      (CacheBannerInternal env sBannerPath st, true))
  else (CacheBannerInternal env sBannerPath st, true)

/-- BannerCache::CacheBanner, state effect only. -/
def CacheBanner (env : Env) (sBannerPath : String) (st : BCState) : BCState :=
  (CacheBannerRun env sBannerPath st).1

/-- The observable outcome of BannerCache::LoadCachedBanner: the returned
texture identifier (its filename) and whether a BannerTexture resource was
created and registered with the texture manager. -/
structure LoadCachedResult where
  id : String
  createdTexture : Bool
deriving DecidableEq

/-- BannerCache::LoadCachedBanner (lines 265-323).  The identifier starts
as the cache path; an empty banner path returns it at once.  Otherwise the
identifier is rewritten by Sprite::SongBannerTexture.  If no in-memory
bitmap exists, warn and return the identifier without touching the texture
boundary.  If the index reports a zero original width or height, log and
return identically.  Otherwise tag a rotated banner's identifier, and if
the texture manager does not already have the identifier registered,
create and register a BannerTexture. -/
def LoadCachedBanner (env : Env) (sBannerPath : String) (st : BCState) : LoadCachedResult :=
  let id0 := GetBannerCachePath env sBannerPath
  if sBannerPath = "" then { id := id0, createdTexture := false }
  else
    let id1 := env.songBannerTexture id0
    match st.bannerPathToImage sBannerPath with
    | none => { id := id1, createdTexture := false }
    | some _ =>
      let iSourceWidth := bannerRecordWidth st sBannerPath
      let iSourceHeight := bannerRecordHeight st sBannerPath
      let wasRotatedBanner := bannerRecordRotated st sBannerPath
      if iSourceWidth = 0 ∨ iSourceHeight = 0 then { id := id1, createdTexture := false }
      else
        let id2 := if wasRotatedBanner then id1 ++ "(was rotated)" else id1
        if env.isTextureRegistered id2 then { id := id2, createdTexture := false }
        else { id := id2, createdTexture := true }

lemma p2go_pow (n : Nat) : ∀ f k, ∃ j, p2go n f (2 ^ k) = 2 ^ j := by
  intro f
  induction f with
  | zero => intro k; exact ⟨k, rfl⟩
  | succ f ih =>
      intro k
      unfold p2go
      by_cases h : 2 ^ k < n
      · rw [if_pos h]
        have h2 : 2 * 2 ^ k = 2 ^ (k + 1) := by ring
        rw [h2]
        exact ih (k + 1)
      · rw [if_neg h]
        exact ⟨k, rfl⟩

lemma power_of_two_eq_pow (n : Nat) : ∃ j, power_of_two n = 2 ^ j := by
  have h := p2go_pow n n 0
  simpa [power_of_two] using h

lemma power_of_two_pos (n : Nat) : 1 ≤ power_of_two n := by
  obtain ⟨j, hj⟩ := power_of_two_eq_pow n
  rw [hj]
  exact Nat.one_le_two_pow

lemma closest_cast_cases (a b c : Nat) :
    closest (↑a) (↑b) (↑c) = ↑b ∨ closest (↑a) (↑b) (↑c) = ↑c := by
  unfold closest
  split
  · right; rfl
  · left; rfl

lemma min32_pow (i : Nat) : ∃ k, min 32 (2 ^ i) = 2 ^ k := by
  by_cases h : i ≤ 5
  · refine ⟨i, ?_⟩
    have : (2 : Nat) ^ i ≤ 2 ^ 5 := Nat.pow_le_pow_right (by norm_num) h
    omega
  · refine ⟨5, ?_⟩
    have : (2 : Nat) ^ 5 ≤ 2 ^ i := Nat.pow_le_pow_right (by norm_num) (by omega)
    omega

lemma max_pow (a b : Nat) : ∃ k, max (2 ^ a) (2 ^ b) = 2 ^ k := by
  rcases le_total a b with h | h
  · exact ⟨b, max_eq_right (Nat.pow_le_pow_right (by norm_num) h)⟩
  · exact ⟨a, max_eq_left (Nat.pow_le_pow_right (by norm_num) h)⟩

lemma toNat_max_min (x y : Nat) :
    (max (↑x) (min 32 (↑y)) : Int).toNat = max x (min 32 y) := by
  omega

/-- Each resize target computed by the halve/snap/floor steps is an exact
power of two. -/
lemma targetDim_pow (d : Nat) : ∃ k, (targetDim d).toNat = 2 ^ k := by
  obtain ⟨j, hj⟩ := power_of_two_eq_pow (d / 2)
  obtain ⟨i, hi⟩ := power_of_two_eq_pow d
  obtain ⟨km, hkm⟩ := min32_pow i
  rcases closest_cast_cases (d / 2) (power_of_two (d / 2)) (power_of_two (d / 2) / 2)
    with h | h
  · rw [targetDim, h, hj, hi, toNat_max_min, hkm]
    exact max_pow j km
  · rw [targetDim, h, hj, hi, toNat_max_min, hkm]
    cases j with
    | zero =>
        refine ⟨km, ?_⟩
        norm_num
    | succ j' =>
        have : 2 ^ (j' + 1) / 2 = 2 ^ j' := by
          rw [pow_succ]
          omega
        rw [this]
        exact max_pow j' km

/-- Each resize target is at least the floor min(32, power_of_two(d)). -/
lemma targetDim_floor (d : Nat) : min 32 (power_of_two d) ≤ (targetDim d).toNat := by
  rcases closest_cast_cases (d / 2) (power_of_two (d / 2)) (power_of_two (d / 2) / 2)
    with h | h <;> rw [targetDim, h] <;> omega

lemma cacheTransform_w (env : Env) (img0 : RageSurface) :
    (cacheTransform env img0).img.w =
      (targetDim (if env.isDiagonalBanner img0.w img0.h then 256 else img0.w)).toNat := by
  simp only [cacheTransform]
  split <;> split <;> (try split) <;> simp_all

lemma cacheTransform_h (env : Env) (img0 : RageSurface) :
    (cacheTransform env img0).img.h =
      (targetDim (if env.isDiagonalBanner img0.w img0.h then 64 else img0.h)).toNat := by
  simp only [cacheTransform]
  split <;> split <;> (try split) <;> simp_all

lemma cacheTransform_srcW (env : Env) (img0 : RageSurface) :
    (cacheTransform env img0).iSourceWidth =
      (if env.isDiagonalBanner img0.w img0.h then 256 else img0.w) := by
  simp only [cacheTransform]
  split <;> simp_all

lemma cacheTransform_srcH (env : Env) (img0 : RageSurface) :
    (cacheTransform env img0).iSourceHeight =
      (if env.isDiagonalBanner img0.w img0.h then 64 else img0.h) := by
  simp only [cacheTransform]
  split <;> simp_all

/-- The Demand bulk loop never evicts or replaces an already-resident
entry. -/
lemma demandLoad_preserve (env : Env) (disk : String → Option RageSurface)
    (bd : List (String × BannerRecord)) :
    ∀ (mem : String → Option RageSurface) (p : String) (v : RageSurface),
      mem p = some v → demandLoad env disk bd mem p = some v := by
  induction bd with
  | nil => intro mem p v h; exact h
  | cons qr rest ih =>
      intro mem p v h
      obtain ⟨q, r⟩ := qr
      simp only [demandLoad]
      apply ih
      by_cases hq : (mem q).isSome
      · rw [if_pos hq]; exact h
      · rw [if_neg hq]
        cases hdisk : disk (GetBannerCachePath env q) with
        | none => exact h
        | some img =>
            by_cases hpq : p = q
            · subst hpq; rw [h] at hq; simp at hq
            · simp only [if_neg hpq]; exact h

/-- The Demand bulk loop loads every indexed path whose cache file exists
and which is not already resident. -/
lemma demandLoad_loads (env : Env) (disk : String → Option RageSurface)
    (bd : List (String × BannerRecord)) :
    ∀ (mem : String → Option RageSurface) (p : String) (img : RageSurface)
      (r : BannerRecord),
      mem p = none → disk (GetBannerCachePath env p) = some img →
      mapFind bd p = some r → demandLoad env disk bd mem p = some img := by
  induction bd with
  | nil => intro mem p img r _ _ hbd; simp [mapFind] at hbd
  | cons qr rest ih =>
      intro mem p img r hmem hdisk hbd
      obtain ⟨q, r'⟩ := qr
      simp only [demandLoad]
      by_cases hq : q = p
      · subst hq
        have hnone : (mem q).isSome = false := by rw [hmem]; rfl
        rw [if_neg (by simp [hnone]), hdisk]
        exact demandLoad_preserve env disk rest _ q img (by simp)
      · have hbd' : mapFind rest p = some r := by
          simpa [mapFind, hq] using hbd
        by_cases hqs : (mem q).isSome
        · rw [if_pos hqs]; exact ih mem p img r hmem hdisk hbd'
        · rw [if_neg hqs]
          cases hdq : disk (GetBannerCachePath env q) with
          | none => exact ih mem p img r hmem hdisk hbd'
          | some img' =>
              refine ih _ p img r ?_ hdisk hbd'
              have hpq : ¬ p = q := fun hh => hq hh.symm
              simp only [if_neg hpq]
              exact hmem

/-- A small 16-bit cache surface used as a concrete instance. -/
def surf64 : RageSurface := { w := 64, h := 32, bitsPerPixel := 16 }

/-- A concrete environment: preload mode, fast load off, paletted cache
off, every source path exists but none decodes, hash 0, the usual
directory-style cache path derivation, no diagonal banners, identity
texture-ID rewrite, no texture registered. -/
def envBase : Env :=
  { mode := BNCACHE_LOW_RES_PRELOAD
    fastLoad := false
    palettedBannerCache := false
    doesFileExist := fun _ => true
    loadFile := fun _ => none
    hashForFile := fun _ => 0
    getCacheFilePath := fun d p => d ++ "/" ++ p
    isDiagonalBanner := fun _ _ => false
    songBannerTexture := fun s => s
    isTextureRegistered := fun _ => false }

/-- envBase with every source decoding to a 100x37 32-bit image. -/
def envLoad : Env :=
  { envBase with loadFile := fun _ => some { w := 100, h := 37, bitsPerPixel := 32 } }

/-- envBase with the banner cache disabled. -/
def envOff : Env := { envBase with mode := BNCACHE_OFF }

/-- envBase in load-on-demand mode. -/
def envOnDemand : Env := { envBase with mode := BNCACHE_LOW_RES_LOAD_ON_DEMAND }

/-- envBase with no source file existing. -/
def envC10 : Env := { envBase with doesFileExist := fun _ => false }

/-- The empty cache state: nothing resident, refcount 0, empty index, no
cache files on disk. -/
def stEmpty : BCState :=
  { bannerPathToImage := fun _ => none, demandRefcount := 0, bannerData := [],
    cacheDisk := fun _ => none }

/-- Empty state except that the cache file for path "b" exists on disk. -/
def stDisk : BCState :=
  { stEmpty with cacheDisk := fun q => if q = "Banners/b" then some surf64 else none }

/-- Empty state except that path "b" is indexed and its cache file exists. -/
def stDemand : BCState :=
  { stEmpty with
    bannerData := [("b",
      { cachePathVal := "Banners/b", width := 64, height := 32, fullHash := 0,
        rotated := false })],
    cacheDisk := fun q => if q = "Banners/b" then some surf64 else none }

/-- Claim C6: in the resize-target computation, a halved dimension exactly
equidistant between the enclosing (rounded-up) power of two and the
preceding (rounded-down) power of two is snapped to the rounded-up power
of two: closest returns its first argument when the absolute distances are
equal, and the call site passes power_of_two(width) first. -/
theorem closest_tie_prefers_round_up (n : Nat)
    (h : ((↑n : Int) - ↑(power_of_two n)).natAbs
          = ((↑n : Int) - ↑(power_of_two n / 2)).natAbs) :
    closest (↑n) (↑(power_of_two n)) (↑(power_of_two n / 2)) = ↑(power_of_two n) := by
  unfold closest
  rw [h]
  simp

/-- Witness for C6 at the halved dimension 3, which is equidistant between
power_of_two 3 = 4 and 4 / 2 = 2. -/
theorem closest_tie_prefers_round_up_witness :
    ((↑(3 : Nat) : Int) - ↑(power_of_two 3)).natAbs
      = ((↑(3 : Nat) : Int) - ↑(power_of_two 3 / 2)).natAbs
    ∧ closest (↑(3 : Nat)) (↑(power_of_two 3)) (↑(power_of_two 3 / 2))
        = ↑(power_of_two 3) :=
  ⟨by decide, closest_tie_prefers_round_up 3 (by decide)⟩

/-- Claim C7: each computed target dimension is at least the floor
min(32, power_of_two(originalDimension)); the floor itself never exceeds
the source's rounded-up power of two; and for a 40x40 non-diagonal source
both targets are at least 32. -/
theorem resize_floor_clamp (env : Env) (img0 : RageSurface) :
    min 32 (power_of_two (cacheTransform env img0).iSourceWidth)
      ≤ (cacheTransform env img0).img.w
    ∧ min 32 (power_of_two (cacheTransform env img0).iSourceHeight)
        ≤ (cacheTransform env img0).img.h
    ∧ min 32 (power_of_two (cacheTransform env img0).iSourceWidth)
        ≤ power_of_two (cacheTransform env img0).iSourceWidth
    ∧ min 32 (power_of_two (cacheTransform env img0).iSourceHeight)
        ≤ power_of_two (cacheTransform env img0).iSourceHeight
    ∧ (env.isDiagonalBanner 40 40 = false →
        32 ≤ (cacheTransform env { w := 40, h := 40, bitsPerPixel := 32 }).img.w
        ∧ 32 ≤ (cacheTransform env { w := 40, h := 40, bitsPerPixel := 32 }).img.h) := by
  refine ⟨?_, ?_, min_le_right _ _, min_le_right _ _, ?_⟩
  · rw [cacheTransform_w, cacheTransform_srcW]
    exact targetDim_floor _
  · rw [cacheTransform_h, cacheTransform_srcH]
    exact targetDim_floor _
  · intro hdiag
    rw [cacheTransform_w, cacheTransform_h]
    simp only [hdiag]
    refine ⟨?_, ?_⟩ <;> decide

/-- Witness for C7's conditional part: envBase classifies nothing as
diagonal, and the 40x40 source's targets are at least 32. -/
theorem resize_floor_clamp_witness :
    envBase.isDiagonalBanner 40 40 = false
    ∧ (32 ≤ (cacheTransform envBase { w := 40, h := 40, bitsPerPixel := 32 }).img.w
       ∧ 32 ≤ (cacheTransform envBase { w := 40, h := 40, bitsPerPixel := 32 }).img.h) :=
  ⟨rfl, (resize_floor_clamp envBase { w := 40, h := 40, bitsPerPixel := 32 }).2.2.2.2 rfl⟩

/-- Claim C2: when the transform-and-persist step runs to completion (the
source decodes), the computed target dimensions are exact powers of two,
and the image persisted at the cache path is exactly the transformed image
with those dimensions. -/
theorem cacheBanner_power_of_two_dims (env : Env) (st : BCState) (sBannerPath : String)
    (img0 : RageSurface) (h : env.loadFile sBannerPath = some img0) :
    (∃ k, (cacheTransform env img0).img.w = 2 ^ k)
    ∧ (∃ k, (cacheTransform env img0).img.h = 2 ^ k)
    ∧ (CacheBannerInternal env sBannerPath st).cacheDisk (GetBannerCachePath env sBannerPath)
        = some (cacheTransform env img0).img := by
  refine ⟨?_, ?_, ?_⟩
  · rw [cacheTransform_w]
    exact targetDim_pow _
  · rw [cacheTransform_h]
    exact targetDim_pow _
  · simp [CacheBannerInternal, h]

/-- Witness for C2 at a 100x37 source in envLoad. -/
theorem cacheBanner_power_of_two_dims_witness :
    envLoad.loadFile "b" = some { w := 100, h := 37, bitsPerPixel := 32 }
    ∧ ((∃ k, (cacheTransform envLoad { w := 100, h := 37, bitsPerPixel := 32 }).img.w = 2 ^ k)
       ∧ (∃ k, (cacheTransform envLoad { w := 100, h := 37, bitsPerPixel := 32 }).img.h = 2 ^ k)
       ∧ (CacheBannerInternal envLoad "b" stEmpty).cacheDisk (GetBannerCachePath envLoad "b")
           = some (cacheTransform envLoad { w := 100, h := 37, bitsPerPixel := 32 }).img) :=
  ⟨rfl, cacheBanner_power_of_two_dims envLoad stEmpty "b" _ rfl⟩

/-- Claim C1: for a source path whose source file exists (in a low-res
caching mode), CacheBanner skips the regeneration step exactly when the
cache file exists and either fast load is set or the stored fingerprint
matches the source's current fingerprint; in every other case — including
an entirely absent cache file even with fast load set — it regenerates. -/
theorem cacheBanner_skip_iff (env : Env) (st : BCState) (sBannerPath : String)
    (hmode : env.mode = BNCACHE_LOW_RES_PRELOAD ∨
             env.mode = BNCACHE_LOW_RES_LOAD_ON_DEMAND)
    (hsrc : env.doesFileExist sBannerPath = true) :
    ((CacheBannerRun env sBannerPath st).2 = false ↔
      ((st.cacheDisk (GetBannerCachePath env sBannerPath)).isSome = true
        ∧ (env.fastLoad = true ∨ storedHashMatches env st sBannerPath = true)))
    ∧ (st.cacheDisk (GetBannerCachePath env sBannerPath) = none →
        (CacheBannerRun env sBannerPath st).2 = true) := by
  have hm : ¬ (env.mode ≠ BNCACHE_LOW_RES_PRELOAD ∧
               env.mode ≠ BNCACHE_LOW_RES_LOAD_ON_DEMAND) := by
    rcases hmode with h | h <;> simp [h]
  have key : (CacheBannerRun env sBannerPath st).2
      = !((st.cacheDisk (GetBannerCachePath env sBannerPath)).isSome
          && (env.fastLoad || storedHashMatches env st sBannerPath)) := by
    simp only [CacheBannerRun, if_neg hm]
    rw [if_neg (by simp [hsrc])]
    by_cases hd : (st.cacheDisk (GetBannerCachePath env sBannerPath)).isSome = true
    · rw [if_pos hd, hd]
      by_cases hup : (env.fastLoad || storedHashMatches env st sBannerPath) = true
      · rw [if_pos hup, hup]
        simp
      · rw [if_neg hup]
        rw [Bool.not_eq_true] at hup
        rw [hup]
        simp
    · rw [if_neg hd]
      rw [Bool.not_eq_true] at hd
      rw [hd]
      simp
  constructor
  · rw [key]
    cases hd : (st.cacheDisk (GetBannerCachePath env sBannerPath)).isSome <;>
      cases hf : env.fastLoad <;>
        cases hh : storedHashMatches env st sBannerPath <;> simp
  · intro h0
    rw [key, h0]
    simp

/-- Witness for C1: in envBase with the empty state the cache file for "b"
is absent, so CacheBanner regenerates. -/
theorem cacheBanner_skip_iff_witness :
    (envBase.mode = BNCACHE_LOW_RES_PRELOAD ∨
     envBase.mode = BNCACHE_LOW_RES_LOAD_ON_DEMAND)
    ∧ envBase.doesFileExist "b" = true
    ∧ (CacheBannerRun envBase "b" stEmpty).2 = true :=
  ⟨Or.inl rfl, rfl, (cacheBanner_skip_iff envBase stEmpty "b" (Or.inl rfl) rfl).2 rfl⟩

/-- Claim C3: a LoadBanner call (in a low-res mode, nonempty path, asset
not yet resident) whose cache-file load fails runs the regeneration step
exactly once and attempts at most one further cache-file load; when the
regeneration cannot produce the cache file (the source is unreadable), the
retry load also fails, the call returns with the state unchanged and the
in-memory cache has no entry for the path. -/
theorem loadBanner_single_retry (env : Env) (st : BCState) (sBannerPath : String)
    (hp : sBannerPath ≠ "")
    (hmode : env.mode = BNCACHE_LOW_RES_PRELOAD ∨
             env.mode = BNCACHE_LOW_RES_LOAD_ON_DEMAND)
    (hmem : st.bannerPathToImage sBannerPath = none)
    (hdisk : st.cacheDisk (GetBannerCachePath env sBannerPath) = none) :
    (LoadBannerRun env sBannerPath st).regenAttempts = 1
    ∧ (LoadBannerRun env sBannerPath st).loadAttempts ≤ 2
    ∧ (env.loadFile sBannerPath = none →
        LoadBannerRun env sBannerPath st
          = { state := st, regenAttempts := 1, loadAttempts := 2 }
        ∧ (LoadBanner env sBannerPath st).bannerPathToImage sBannerPath = none) := by
  have hm : ¬ (env.mode ≠ BNCACHE_LOW_RES_PRELOAD ∧
               env.mode ≠ BNCACHE_LOW_RES_LOAD_ON_DEMAND) := by
    rcases hmode with h | h <;> simp [h]
  have hns : ¬ (st.bannerPathToImage sBannerPath).isSome = true := by simp [hmem]
  refine ⟨?_, ?_, ?_⟩
  · simp only [LoadBannerRun, if_neg hp, if_neg hm, if_neg hns, hdisk]
    split <;> (try split) <;> rfl
  · simp only [LoadBannerRun, if_neg hp, if_neg hm, if_neg hns, hdisk]
    split <;> (try split) <;> simp
  · intro hload
    have hint : CacheBannerInternal env sBannerPath st = st := by
      simp [CacheBannerInternal, hload]
    have hrun : LoadBannerRun env sBannerPath st
        = { state := st, regenAttempts := 1, loadAttempts := 2 } := by
      simp only [LoadBannerRun, if_neg hp, if_neg hm, if_neg hns, hdisk, hint]
    refine ⟨hrun, ?_⟩
    rw [LoadBanner, hrun]
    exact hmem

/-- Witness for C3: in envBase, path "b" has no cache file and an
unreadable source; the call regenerates once, retries once and gives up
with the state unchanged. -/
theorem loadBanner_single_retry_witness :
    ("b" : String) ≠ ""
    ∧ stEmpty.bannerPathToImage "b" = none
    ∧ stEmpty.cacheDisk (GetBannerCachePath envBase "b") = none
    ∧ envBase.loadFile "b" = none
    ∧ LoadBannerRun envBase "b" stEmpty
        = { state := stEmpty, regenAttempts := 1, loadAttempts := 2 } :=
  ⟨by decide, rfl, rfl, rfl,
   ((loadBanner_single_retry envBase stEmpty "b" (by decide) (Or.inl rfl) rfl rfl).2.2
      rfl).1⟩

/-- Claim C4: the demand refcount is a state-machine invariant.  A nested
Demand (count already at least 1) only bumps the count and loads nothing;
an Undemand whose decremented count is nonzero only drops the count and
releases nothing; on the 0-to-1 transition in load-on-demand mode, Demand
bulk-loads every indexed asset whose cache file exists; and the sequence
Demand(); Demand(); Undemand() leaves the loaded assets resident with
count 1, while the matching final Undemand releases everything. -/
theorem demand_refcount_transitions (env : Env) (st : BCState)
    (hmode : env.mode = BNCACHE_LOW_RES_LOAD_ON_DEMAND)
    (hrc : st.demandRefcount = 0) :
    (∀ s : BCState, 1 ≤ s.demandRefcount →
        Demand env s = { s with demandRefcount := s.demandRefcount + 1 })
    ∧ (∀ s : BCState, s.demandRefcount - 1 ≠ 0 →
        Undemand env s = { s with demandRefcount := s.demandRefcount - 1 })
    ∧ (∀ (p : String) (img : RageSurface) (r : BannerRecord),
        st.bannerPathToImage p = none →
        mapFind st.bannerData p = some r →
        st.cacheDisk (GetBannerCachePath env p) = some img →
        (Demand env st).bannerPathToImage p = some img)
    ∧ (Undemand env (Demand env (Demand env st))).bannerPathToImage
        = (Demand env st).bannerPathToImage
    ∧ (Undemand env (Demand env (Demand env st))).demandRefcount = 1
    ∧ (Undemand env (Undemand env (Demand env (Demand env st)))).bannerPathToImage
        = fun _ => none := by
  have hdemNested : ∀ s : BCState, 1 ≤ s.demandRefcount →
      Demand env s = { s with demandRefcount := s.demandRefcount + 1 } := by
    intro s hs
    simp only [Demand]
    rw [if_pos (by omega)]
  have hundemNop : ∀ s : BCState, s.demandRefcount - 1 ≠ 0 →
      Undemand env s = { s with demandRefcount := s.demandRefcount - 1 } := by
    intro s hs
    simp only [Undemand]
    rw [if_pos hs]
  have hdem1 : Demand env st =
      { bannerPathToImage :=
          demandLoad env st.cacheDisk st.bannerData st.bannerPathToImage
        demandRefcount := st.demandRefcount + 1
        bannerData := st.bannerData
        cacheDisk := st.cacheDisk } := by
    simp only [Demand]
    rw [if_neg (by omega), if_neg (by simp [hmode])]
  have hrc1 : (Demand env st).demandRefcount = 1 := by
    rw [hdem1]
    simp
    omega
  have hdem2 : Demand env (Demand env st) =
      { Demand env st with demandRefcount := (Demand env st).demandRefcount + 1 } :=
    hdemNested _ (by omega)
  have hrc2 : (Demand env (Demand env st)).demandRefcount = 2 := by
    rw [hdem2]
    simp
    omega
  have hund1 : Undemand env (Demand env (Demand env st)) =
      { Demand env (Demand env st) with
        demandRefcount := (Demand env (Demand env st)).demandRefcount - 1 } :=
    hundemNop _ (by omega)
  have hrc3 : (Undemand env (Demand env (Demand env st))).demandRefcount = 1 := by
    rw [hund1]
    simp
    omega
  refine ⟨hdemNested, hundemNop, ?_, ?_, hrc3, ?_⟩
  · intro p img r h1 h2 h3
    rw [hdem1]
    exact demandLoad_loads env st.cacheDisk st.bannerData st.bannerPathToImage p img r h1 h3 h2
  · rw [hund1, hdem2]
  · have hfinal : ∀ s : BCState, s.demandRefcount = 1 →
        (Undemand env s).bannerPathToImage = fun _ => none := by
      intro s hs
      simp only [Undemand]
      rw [if_neg (by omega), if_neg (by simp [hmode])]
      rfl
    exact hfinal _ hrc3

/-- Witness for C4 in envOnDemand at stDemand (refcount 0): the matching
final Undemand empties the in-memory cache. -/
theorem demand_refcount_transitions_witness :
    envOnDemand.mode = BNCACHE_LOW_RES_LOAD_ON_DEMAND
    ∧ stDemand.demandRefcount = 0
    ∧ (Undemand envOnDemand (Undemand envOnDemand
         (Demand envOnDemand (Demand envOnDemand stDemand)))).bannerPathToImage
        = fun _ => none :=
  ⟨rfl, rfl, (demand_refcount_transitions envOnDemand stDemand rfl rfl).2.2.2.2.2⟩

/-- Counterexample to claim C5 as stated: in preload mode, LoadBanner on a
path whose cache file exists on disk but which is not yet resident loads
the image into the in-memory cache — the state changes, so LoadBanner is
not unconditionally a no-op in preload mode. -/
theorem loadBanner_preload_not_noop :
    stDisk.bannerPathToImage "b" = none
    ∧ (LoadBanner envBase "b" stDisk).bannerPathToImage "b" = some surf64 := by
  constructor <;> rfl

/-- Claim C5 (amended): LoadBanner is a no-op when the caching mode is
disabled; in preload mode it is a no-op whenever the asset is already
resident in memory (the matrix's "already resident" annotation). -/
theorem loadBanner_noop_conditions (env : Env) (sBannerPath : String) (st : BCState) :
    (env.mode = BNCACHE_OFF → LoadBanner env sBannerPath st = st)
    ∧ (env.mode = BNCACHE_LOW_RES_PRELOAD →
        (st.bannerPathToImage sBannerPath).isSome = true →
        LoadBanner env sBannerPath st = st) := by
  constructor
  · intro h
    by_cases hp : sBannerPath = ""
    · simp [LoadBanner, LoadBannerRun, hp]
    · simp [LoadBanner, LoadBannerRun, hp, h]
  · intro h hres
    by_cases hp : sBannerPath = ""
    · simp [LoadBanner, LoadBannerRun, hp]
    · simp [LoadBanner, LoadBannerRun, hp, h, hres]

/-- Witness for the amended C5: with the cache disabled, LoadBanner leaves
the state untouched. -/
theorem loadBanner_noop_conditions_witness :
    envOff.mode = BNCACHE_OFF ∧ LoadBanner envOff "b" stEmpty = stEmpty :=
  ⟨rfl, (loadBanner_noop_conditions envOff "b" stEmpty).1 rfl⟩

/-- Claim C8: LoadCachedBanner with no in-memory bitmap for a (nonempty)
path returns the rewritten cache-path identifier without creating or
registering any texture resource; and when a bitmap exists but the index
reports a zero width or height, it behaves identically. -/
theorem loadCachedBanner_inert (env : Env) (st : BCState) (sBannerPath : String)
    (hp : sBannerPath ≠ "") :
    (st.bannerPathToImage sBannerPath = none →
      LoadCachedBanner env sBannerPath st =
        { id := env.songBannerTexture (GetBannerCachePath env sBannerPath),
          createdTexture := false })
    ∧ (∀ img, st.bannerPathToImage sBannerPath = some img →
        (bannerRecordWidth st sBannerPath = 0 ∨ bannerRecordHeight st sBannerPath = 0) →
        LoadCachedBanner env sBannerPath st =
          { id := env.songBannerTexture (GetBannerCachePath env sBannerPath),
            createdTexture := false }) := by
  constructor
  · intro h
    simp [LoadCachedBanner, hp, h]
  · intro img h hz
    simp [LoadCachedBanner, hp, h, hz]

/-- Witness for C8: in the empty state nothing is resident, so the call
returns the identifier and creates nothing. -/
theorem loadCachedBanner_inert_witness :
    ("b" : String) ≠ ""
    ∧ stEmpty.bannerPathToImage "b" = none
    ∧ LoadCachedBanner envBase "b" stEmpty =
        { id := envBase.songBannerTexture (GetBannerCachePath envBase "b"),
          createdTexture := false } :=
  ⟨by decide, rfl, (loadCachedBanner_inert envBase stEmpty "b" (by decide)).1 rfl⟩

/-- Claim C9: a successful regeneration removes any prior in-memory entry
for the path and leaves the freshly transformed bitmap resident exactly
when the mode is preload; entries for other paths are untouched. -/
theorem cacheBannerInternal_memory_policy (env : Env) (st : BCState) (sBannerPath : String)
    (img0 : RageSurface) (h : env.loadFile sBannerPath = some img0) :
    (CacheBannerInternal env sBannerPath st).bannerPathToImage sBannerPath
      = (if env.mode = BNCACHE_LOW_RES_PRELOAD
          then some (cacheTransform env img0).img else none)
    ∧ (∀ q, q ≠ sBannerPath →
        (CacheBannerInternal env sBannerPath st).bannerPathToImage q
          = st.bannerPathToImage q) := by
  constructor
  · simp only [CacheBannerInternal, h]
    by_cases hm : env.mode = BNCACHE_LOW_RES_PRELOAD <;> simp [hm]
  · intro q hq
    simp only [CacheBannerInternal, h]
    by_cases hm : env.mode = BNCACHE_LOW_RES_PRELOAD <;> simp [hm, hq]

/-- Witness for C9 at a decodable 100x37 source in preload mode. -/
theorem cacheBannerInternal_memory_policy_witness :
    envLoad.loadFile "b" = some { w := 100, h := 37, bitsPerPixel := 32 }
    ∧ ((CacheBannerInternal envLoad "b" stEmpty).bannerPathToImage "b"
        = (if envLoad.mode = BNCACHE_LOW_RES_PRELOAD
            then some (cacheTransform envLoad { w := 100, h := 37, bitsPerPixel := 32 }).img
            else none)
       ∧ (∀ q, q ≠ "b" →
            (CacheBannerInternal envLoad "b" stEmpty).bannerPathToImage q
              = stEmpty.bannerPathToImage q)) :=
  ⟨rfl, cacheBannerInternal_memory_policy envLoad stEmpty "b" _ rfl⟩

/-- Counterexample to claim C10 as stated: "b.png" is a source path whose
source file cannot be read (it does not exist at all); CacheBanner returns
without invoking the regeneration step and without changing any state,
instead of forcing regeneration. -/
theorem cacheBanner_unreadable_counterexample :
    envC10.loadFile "b.png" = none
    ∧ (CacheBannerRun envC10 "b.png" stEmpty).2 = false
    ∧ CacheBanner envC10 "b.png" stEmpty = stEmpty := by
  refine ⟨rfl, rfl, rfl⟩

/-- Claim C10 (amended): for a source file that exists but cannot be
decoded, whenever the up-to-date check fails (fast load off and no
matching stored fingerprint), CacheBanner invokes the regeneration step,
which fails gracefully — it logs and returns with the state unchanged —
rather than raising an error; a source file that does not exist at all is
skipped without regeneration. -/
theorem cacheBanner_undecodable_source (env : Env) (st : BCState) (sBannerPath : String)
    (hmode : env.mode = BNCACHE_LOW_RES_PRELOAD ∨
             env.mode = BNCACHE_LOW_RES_LOAD_ON_DEMAND)
    (hexists : env.doesFileExist sBannerPath = true)
    (hload : env.loadFile sBannerPath = none)
    (hfast : env.fastLoad = false)
    (hhash : storedHashMatches env st sBannerPath = false) :
    CacheBannerRun env sBannerPath st = (st, true) := by
  have hm : ¬ (env.mode ≠ BNCACHE_LOW_RES_PRELOAD ∧
               env.mode ≠ BNCACHE_LOW_RES_LOAD_ON_DEMAND) := by
    rcases hmode with h | h <;> simp [h]
  have hint : CacheBannerInternal env sBannerPath st = st := by
    simp [CacheBannerInternal, hload]
  simp only [CacheBannerRun, if_neg hm]
  rw [if_neg (by simp [hexists])]
  by_cases hd : (st.cacheDisk (GetBannerCachePath env sBannerPath)).isSome = true
  · rw [if_pos hd, if_neg (by simp [hfast, hhash]), hint]
  · rw [if_neg hd, hint]

/-- Witness for the amended C10: in envBase the source "b" exists but does
not decode, fast load is off and nothing is indexed, so CacheBanner
reaches the regeneration step and returns with the state unchanged. -/
theorem cacheBanner_undecodable_source_witness :
    (envBase.mode = BNCACHE_LOW_RES_PRELOAD ∨
     envBase.mode = BNCACHE_LOW_RES_LOAD_ON_DEMAND)
    ∧ envBase.doesFileExist "b" = true
    ∧ envBase.loadFile "b" = none
    ∧ envBase.fastLoad = false
    ∧ storedHashMatches envBase stEmpty "b" = false
    ∧ CacheBannerRun envBase "b" stEmpty = (stEmpty, true) :=
  ⟨Or.inl rfl, rfl, rfl, rfl, rfl,
   cacheBanner_undecodable_source envBase stEmpty "b" (Or.inl rfl) rfl rfl rfl rfl⟩
